import Mathlib

/-!
Verification of the order-placement core of the online-marketplace API
(apps/orders, apps/products).

The embedding follows the source:
- data model from `src/apps/orders/models.py`, `src/apps/products/models.py`
  and `src/apps/abstracts/models.py`;
- the HTTP handlers from `src/apps/orders/views.py`
  (`OrderCreateView.post`, `CartItemViewSet.create`, `OrderListView`);
- the serializer behaviour from `src/apps/orders/serializers.py`.

Prices (`DecimalField(max_digits=10, decimal_places=2)`) are modelled as
rationals.  Python exceptions that escape a handler are modelled with
`Except`; `transaction.atomic` rollback is modelled by returning the original
database state alongside the error.
-/

namespace Marketplace

/-- Python exception classes that the embedded code can raise. -/
inductive PyExc where
  | validationError (msg : String)
  | fieldError (msg : String)
  | attributeError (msg : String)
deriving DecidableEq, Repr

/-- Row of `products.StoreProductRelation` (products/models.py:162-215):
`product` FK, `store` FK, `quantity = IntegerField`, `price = DecimalField`,
plus the soft-delete column `deleted_at` from `AbstractBaseModel`. -/
structure StoreProductRelation where
  id : Nat
  product_id : Nat
  store_id : Nat
  quantity : Int
  price : ℚ
  deleted_at : Option Nat
deriving DecidableEq, Repr

/-- Row of `products.Product` (products/models.py:66-112). Only the fields the
order flow reads are kept (`name`, `price`), plus the soft-delete column. -/
structure Product where
  id : Nat
  category_id : Nat
  name : String
  price : ℚ
  deleted_at : Option Nat
deriving DecidableEq, Repr

/-- Row of `orders.CartItem` (orders/models.py:59-100): `user` FK,
`store_product` FK, `quantity = PositiveSmallIntegerField`, soft-delete column.
The old `product` FK is commented out in the source (lines 69-73). -/
structure CartItem where
  id : Nat
  user_id : Nat
  store_product_id : Nat
  quantity : Nat
  deleted_at : Option Nat
deriving DecidableEq, Repr

/-- Row of `orders.Order` (orders/models.py:103-183). -/
structure Order where
  id : Nat
  user_id : Option Nat
  phone_number : String
  delivery_address : String
  status : String
  deleted_at : Option Nat
deriving DecidableEq, Repr

/-- Row of `orders.OrderItem` (orders/models.py:186-235): `order` FK,
`store_product` FK, snapshot `name` and `price`, `quantity`. -/
structure OrderItem where
  id : Nat
  order_id : Nat
  store_product_id : Nat
  name : String
  price : ℚ
  quantity : Nat
  deleted_at : Option Nat
deriving DecidableEq, Repr

/-- The relational store backing the models. -/
structure DB where
  products : List Product
  relations : List StoreProductRelation
  cart_items : List CartItem
  orders : List Order
  order_items : List OrderItem
deriving DecidableEq, Repr

/-! ### Validators -/

/-- Nine to fifteen ASCII digits (the `\d{9,15}` part of the phone regex;
Python `str.isdigit` is broader on non-ASCII input, which the repository never
feeds it).  Strings are handled through their character lists, which matches
Python's character-based indexing and `len`. -/
def digits_9_15 (t : List Char) : Bool :=
  (9 ≤ t.length && t.length ≤ 15) && t.all Char.isDigit

/-- `RegexValidator(regex=r'^\+?1?\d{9,15}$')` on `Order.phone_number`
(orders/models.py:123-133).  The optional `+` and optional `1` are expanded
with backtracking, exactly as the regex engine matches. -/
def phone_regex_ok (s : String) : Bool :=
  let rest := match s.data with
    | '+' :: r => r
    | l => l
  match rest with
  | '1' :: r2 => digits_9_15 r2 || digits_9_15 ('1' :: r2)
  | l => digits_9_15 l

/-- Python `s.startswith('+')`. -/
def starts_with_plus (s : String) : Bool :=
  match s.data with
  | '+' :: _ => true
  | _ => false

/-- Field-level validation that `Order.full_clean` runs before `Order.clean`:
`blank=False` on the two `CharField`s, `max_length` 20 / 1024, the phone
`RegexValidator`, and the `status` choices (orders/models.py:107-143). -/
def order_clean_fields (phone addr status : String) : Except PyExc Unit :=
  if phone.data.isEmpty then .error (.validationError "This field cannot be blank.")
  else if 20 < phone.data.length then .error (.validationError "Phone number too long.")
  else if !phone_regex_ok phone then
    .error (.validationError "Phone number must be entered in the format: +999999999.")
  else if addr.data.isEmpty then .error (.validationError "This field cannot be blank.")
  else if 1024 < addr.data.length then
    .error (.validationError "Delivery address too long.")
  else if !(status == "P" || status == "S" || status == "D") then
    .error (.validationError "Invalid status choice.")
  else .ok ()

/-- `Order.clean` (orders/models.py:159-174): inside `if self.phone_number:`,
a leading `+`, all digits after it (Python `''.isdigit()` is `False`, hence
the non-emptiness conjunct), length between 9 and 15; then a delivery address
that is non-empty and not all whitespace (`.strip()`). -/
def order_clean (phone addr : String) : Except PyExc Unit :=
  let digits := phone.data.drop 1
  if !phone.data.isEmpty && !starts_with_plus phone then
    .error (.validationError "Phone number must start with +")
  else if !phone.data.isEmpty && !(!digits.isEmpty && digits.all Char.isDigit) then
    .error (.validationError "Phone number must contain only digits after +")
  else if !phone.data.isEmpty && (decide (digits.length < 9) || decide (15 < digits.length)) then
    .error (.validationError "Phone number must have between 9 and 15 digits")
  else if addr.data.isEmpty || addr.data.all Char.isWhitespace then
    .error (.validationError "Delivery address cannot be empty")
  else .ok ()

/-- `Order.full_clean`, as invoked by the overridden `Order.save`
(orders/models.py:176-179): field validation followed by `clean`.  Django
collects errors from both phases into one dict and raises once; this embedding
short-circuits on the first failing phase, which raises in exactly the same
cases. -/
def order_full_clean (phone addr status : String) : Except PyExc Unit :=
  match order_clean_fields phone addr status with
  | .error e => .error e
  | .ok () => order_clean phone addr

/-- `StoreProductRelation.clean` (products/models.py:200-206): quantity and
price must be non-negative. -/
def store_product_relation_clean (r : StoreProductRelation) : Except PyExc Unit :=
  if r.quantity < 0 then .error (.validationError "Quantity cannot be negative")
  else if r.price < 0 then .error (.validationError "Price cannot be negative")
  else .ok ()

/-! ### Queryset primitives -/

/-- `CartItem.objects.filter(user=user)` under `CartItemManager`
(orders/models.py:51-56), which restricts to rows with `deleted_at IS NULL`. -/
def active_cart_items (db : DB) (uid : Nat) : List CartItem :=
  db.cart_items.filter (fun c => c.user_id == uid && c.deleted_at == none)

/-- Relational field names of `CartItem` (orders/models.py:59-83): `user` and
`store_product`.  The former `product` FK is commented out (lines 69-73). -/
def cart_item_related_fields : List String := ["user", "store_product"]

/-- Resolution of `select_related(f)` when the cart-item queryset of
`OrderCreateView.post` (views.py:429-430) is iterated: Django raises
`FieldError` for a name that is not a relational field of the model.
(`QuerySet.exists()` clears the select clause first, so the earlier emptiness
check at views.py:432 does not trigger this resolution.) -/
def resolve_select_related (f : String) : Except PyExc Unit :=
  if f ∈ cart_item_related_fields then .ok ()
  else .error (.fieldError "Invalid field name given in select_related: product")

/-- Attribute lookup `item.product` (views.py:465): `CartItem` defines no
`product` attribute (the FK is commented out in orders/models.py:69-73), so
Python raises `AttributeError`. -/
def cart_item_product (_c : CartItem) : Except PyExc Product :=
  .error (.attributeError "CartItem object has no attribute product")

/-- `CartItem.objects.filter(user=request.user, product=product)`
(views.py:225-228): Django resolves the `product` keyword against the model's
fields when the filter is built and raises `FieldError`, since `CartItem` has
no `product` field (orders/models.py:69-73). -/
def cart_items_filter_user_product (_db : DB) (_uid : Nat) (_product : String) :
    Except PyExc (Option CartItem) :=
  .error (.fieldError "Cannot resolve keyword product into field")

/-- `cart_items.delete()` (views.py:483) is a bulk `QuerySet.delete`: it issues
a SQL `DELETE` for the matched rows and does **not** call the overridden
`CartItem.delete` (orders/models.py:98-100), so the rows are physically
removed, not soft-deleted. -/
def cart_items_queryset_delete (db : DB) (uid : Nat) : DB :=
  { db with cart_items :=
      db.cart_items.filter (fun c => ¬ (c.user_id == uid && c.deleted_at == none)) }

/-- Fresh primary key for a new `Order` row. -/
def next_order_id (db : DB) : Nat :=
  (db.orders.map (fun o => o.id)).foldr max 0 + 1

/-- Fresh primary key for a new `CartItem` row. -/
def next_cart_item_id (db : DB) : Nat :=
  (db.cart_items.map (fun c => c.id)).foldr max 0 + 1

/-! ### `OrderCreateView.post` (views.py:397-496) -/

/-- Python `round(x, 2)` on decimals: half-to-even rounding at two decimal
places (views.py:469). -/
def round_half_even (x : ℚ) : ℤ :=
  let f := ⌊x⌋
  if x - f < 1/2 then f
  else if (1:ℚ)/2 < x - f then f + 1
  else if f % 2 = 0 then f else f + 1

/-- Rounds a price to two decimal places, half to even. -/
def round2 (q : ℚ) : ℚ := (round_half_even (q * 100) : ℚ) / 100

/-- Loop body of views.py:464-480 for one cart item: reads `item.product`
(which raises, see `cart_item_product`), then snapshots `name`/`price` from
that product and builds the `OrderItem`.  The source passes `product=product`
to the `OrderItem` constructor even though the model field is `store_product`;
the branch is unreachable (the lookup before it raises), and the embedding
records the relation reference of the cart line. -/
def order_item_from_cart_item (oid item_id : Nat) (c : CartItem) :
    Except PyExc OrderItem :=
  match cart_item_product c with
  | .error e => .error e
  | .ok p => .ok ⟨item_id, oid, c.store_product_id, p.name, p.price, c.quantity, none⟩

/-- Builds the order items for all cart lines (the `for item in cart_items`
loop, views.py:464-480), short-circuiting on the first raised exception. -/
def order_items_from_cart (oid : Nat) (base : Nat) : List CartItem → Except PyExc (List OrderItem)
  | [] => .ok []
  | c :: rest =>
    match order_item_from_cart_item oid base c with
    | .error e => .error e
    | .ok i =>
      match order_items_from_cart oid (base + 1) rest with
      | .error e => .error e
      | .ok l => .ok (i :: l)

/-- Body of `OrderCreateView.post` inside `transaction.atomic`
(views.py:427-496).  Returns the updated database and the HTTP status of the
response, or the exception that escaped the handler.  Missing request values
(`request.data.get`) are `Option.none`; Python's falsiness check treats `none`
and the empty string alike. -/
def order_create_post_inner (db : DB) (uid : Nat) (phone? addr? : Option String) :
    Except PyExc (DB × Nat) :=
  let cart := active_cart_items db uid
  if cart.isEmpty then .ok (db, 400)        -- {"cart_items": ["Your cart is empty."]}
  else
    let phone := phone?.getD ""
    let addr := addr?.getD ""
    if phone.data.isEmpty || addr.data.isEmpty then .ok (db, 404)  -- "can't be null" body, HTTP_404_NOT_FOUND
    else
      match order_full_clean phone addr "P" with  -- Order.objects.create → Order.save → full_clean
      | .error e => .error e
      | .ok () =>
        let order : Order := ⟨next_order_id db, some uid, phone, addr, "P", none⟩
        let db1 := { db with orders := db.orders ++ [order] }
        match resolve_select_related "product" with  -- iterating the select_related queryset
        | .error e => .error e
        | .ok () =>
          match order_items_from_cart order.id 1 cart with
          | .error e => .error e
          | .ok items =>
            let _total_price := (items.map (fun i => round2 (i.price * i.quantity))).sum
            let _total_positions := (items.map (fun i => i.quantity)).sum
            let db2 := cart_items_queryset_delete
              { db1 with order_items := db1.order_items ++ items } uid
            .ok (db2, 201)

/-- `OrderCreateView.post` with `transaction.atomic` semantics: on an escaped
exception every write is rolled back (the original database is kept) and DRF
turns the non-DRF exception into a server error, modelled as `.error`. -/
def order_create_post (db : DB) (uid : Nat) (phone? addr? : Option String) :
    DB × Except PyExc Nat :=
  match order_create_post_inner db uid phone? addr? with
  | .ok (db2, status) => (db2, .ok status)
  | .error e => (db, .error e)

/-! ### `CartItemViewSet.create` (views.py:191-252) -/

/-- Request body of `POST /users/carts/`: the view reads the `product` key;
the serializer (and the repository's own tests) use `store_product`. -/
structure CartCreateRequest where
  product : Option String
  store_product : Option Nat
  quantity : Option Nat
deriving DecidableEq, Repr

/-- `request_data.get("quantity") or 1` (views.py:215): Python's `or` replaces
both a missing key and a falsy `0` with the default `1`. -/
def request_quantity (q : Option Nat) : Nat :=
  match q with
  | none => 1
  | some 0 => 1
  | some n => n

/-- `CartItemViewSet.create` (views.py:213-252).  After the null check on the
`product` key the view filters `CartItem` by the nonexistent `product` field,
which raises; both `.ok` branches of that filter are therefore unreachable.
They are still embedded from the source: the merge branch increments the
existing line's quantity and saves without validation (`CartItem` defines no
`full_clean`-calling `save`), and the serializer branch requires an existing,
non-deleted `store_product` and a positive quantity
(`CartItemCreateSerializer`, serializers.py:232-250). -/
def cart_item_create (db : DB) (uid : Nat) (req : CartCreateRequest) :
    DB × Except PyExc Nat :=
  let product := req.product.getD ""
  if product = "" then (db, .ok 400)        -- {"product": ["Product can not be null."]}
  else
    match cart_items_filter_user_product db uid product with
    | .error e => (db, .error e)
    | .ok (some existing) =>
      let merged := db.cart_items.map (fun c =>
        if c.id == existing.id
        then { c with quantity := c.quantity + request_quantity req.quantity }
        else c)
      ({ db with cart_items := merged }, .ok 201)
    | .ok none =>
      match req.store_product with
      | none => (db, .ok 400)
      | some spid =>
        if db.relations.any (fun r => r.id == spid && r.deleted_at == none)
            && 1 ≤ request_quantity req.quantity then
          ({ db with cart_items :=
              db.cart_items ++ [⟨next_cart_item_id db, uid, spid, request_quantity req.quantity, none⟩] },
            .ok 201)
        else (db, .ok 400)

/-! ### `OrderListView` (views.py:344-394) and `OrderListCreateSerializer` -/

/-- The reverse join `order_items__*` used by the annotations
(views.py:356-362).  An SQL join sees every `OrderItem` row of the order, the
soft-delete manager does not filter joined rows. -/
def order_items_all (db : DB) (oid : Nat) : List OrderItem :=
  db.order_items.filter (fun i => i.order_id == oid)

/-- Annotation `total_positions=Count("order_items__id")` (views.py:358). -/
def order_list_total_positions (db : DB) (oid : Nat) : Nat :=
  (order_items_all db oid).length

/-- Annotation `total_price=Sum(F("order_items__price") *
F("order_items__quantity"))` (views.py:359-361); SQL `SUM` over no rows is
`NULL`. -/
def order_list_total_price (db : DB) (oid : Nat) : Option ℚ :=
  match order_items_all db oid with
  | [] => none
  | l => some ((l.map (fun i => i.price * (i.quantity : ℚ))).sum)

/-- Serializer context: `OrderListCreateSerializer.to_representation`
(serializers.py:353-357) reads `total_positions` and `total_price` from it. -/
structure SerializerContext where
  total_positions : Option Nat
  total_price : Option ℚ
deriving DecidableEq, Repr

/-- One serialized order of the list/create serializer, restricted to the
annotated totals the claims are about. -/
structure OrderListEntry where
  order_id : Nat
  total_positions : Option Nat
  total_price : Option ℚ
deriving DecidableEq, Repr

/-- `OrderListCreateSerializer.to_representation` (serializers.py:353-357):
the base representation carries the queryset annotations, then both totals are
overwritten with `self.context.get(...)`. -/
def order_list_entry (db : DB) (ctx : SerializerContext) (oid : Nat) : OrderListEntry :=
  let base : OrderListEntry :=
    ⟨oid, some (order_list_total_positions db oid), order_list_total_price db oid⟩
  { base with total_positions := ctx.total_positions, total_price := ctx.total_price }

/-- In `OrderListView` (a `ListAPIView`) the serializer context holds only
request/view/format, so both `context.get` lookups return `None`. -/
def order_list_view_context : SerializerContext := ⟨none, none⟩

/-- `GET /users/{user_id}/orders/`: `Order.objects.filter(user=user)` under
the soft-delete manager, annotated and serialized (views.py:352-394). -/
def order_list_get (db : DB) (target_uid : Nat) : List OrderListEntry :=
  (db.orders.filter (fun o => o.user_id == some target_uid && o.deleted_at == none)).map
    (fun o => order_list_entry db order_list_view_context o.id)

/-! ### Writes to the inventory table

`StoreProductRelation.save` (products/models.py:208-211) calls `full_clean`
before persisting; `full_clean` runs the field checks of `IntegerField` /
`DecimalField` and then `clean`.  Only `clean` constrains the sign of
`quantity` and `price`; the decimal digit-count checks are independent of the
sign and are not modelled. -/

/-- Django `Model.save` keyed on the primary key: update the row if the pk
exists, insert otherwise. -/
def upsert_relation (l : List StoreProductRelation) (r : StoreProductRelation) :
    List StoreProductRelation :=
  if l.any (fun x => x.id == r.id) then l.map (fun x => if x.id == r.id then r else x)
  else l ++ [r]

/-- `StoreProductRelation.save`: `full_clean` then persist
(products/models.py:208-211). -/
def store_product_relation_save (db : DB) (r : StoreProductRelation) : Except PyExc DB :=
  match store_product_relation_clean r with
  | .error e => .error e
  | .ok () => .ok { db with relations := upsert_relation db.relations r }

/-- `soft_delete` (abstracts/models.py:28-34) sets `deleted_at` and saves; the
save goes through the overridden `save`, hence through `full_clean`, and
leaves the row untouched when validation fails. -/
def store_product_relation_soft_delete (db : DB) (rid now : Nat) : DB :=
  { db with relations := db.relations.map (fun x =>
      if x.id == rid then
        match store_product_relation_clean { x with deleted_at := some now } with
        | .ok _ => { x with deleted_at := some now }
        | .error _ => x
      else x) }

/-- The operations of the repository that can write the inventory table or run
the order/cart flows: administrative create/update (restock) of a relation,
its soft deletion, order placement, and cart creation. -/
inductive MarketOp where
  | save_relation (r : StoreProductRelation)
  | soft_delete_relation (rid now : Nat)
  | place_order (uid : Nat) (phone? addr? : Option String)
  | cart_create (uid : Nat) (req : CartCreateRequest)

/-- Applies one operation; a raised validation error leaves the database
unchanged. -/
def apply_op (db : DB) : MarketOp → DB
  | .save_relation r =>
    match store_product_relation_save db r with
    | .ok db2 => db2
    | .error _ => db
  | .soft_delete_relation rid now => store_product_relation_soft_delete db rid now
  | .place_order uid p a => (order_create_post db uid p a).1
  | .cart_create uid req => (cart_item_create db uid req).1

/-- The empty initial database. -/
def initial_db : DB := ⟨[], [], [], [], []⟩

/-- Runs a sequence of operations. -/
def run_ops (db : DB) (ops : List MarketOp) : DB := ops.foldl apply_op db

/-- Every inventory entry has a non-negative stock quantity. -/
def inventory_nonneg (db : DB) : Prop := ∀ r ∈ db.relations, 0 ≤ r.quantity

/-! ### Helper lemmas -/

theorem resolve_select_related_product :
    resolve_select_related "product" =
      .error (.fieldError "Invalid field name given in select_related: product") := rfl

/-- `OrderCreateView.post` can only answer 400, 404, or raise: the iteration
of the `select_related("product")` queryset always raises. -/
theorem order_create_post_inner_cases (db : DB) (uid : Nat) (p a : Option String) :
    order_create_post_inner db uid p a = .ok (db, 400) ∨
    order_create_post_inner db uid p a = .ok (db, 404) ∨
    ∃ e, order_create_post_inner db uid p a = .error e := by
  by_cases h1 : (active_cart_items db uid).isEmpty
  · left
    simp [order_create_post_inner, h1]
  · by_cases h2 : ((p.getD "").data.isEmpty || (a.getD "").data.isEmpty) = true
    · right; left
      simp [order_create_post_inner, h1, h2]
    · cases hfc : order_full_clean (p.getD "") (a.getD "") "P" with
      | error e =>
        right; right
        exact ⟨e, by simp [order_create_post_inner, h1, h2, hfc]⟩
      | ok u =>
        cases u
        right; right
        refine ⟨.fieldError "Invalid field name given in select_related: product", ?_⟩
        simp [order_create_post_inner, h1, h2, hfc, resolve_select_related_product]

/-- Order placement never commits a write: every run either returns an early
response with the database unchanged or rolls back on the raised exception. -/
theorem order_create_post_fst (db : DB) (uid : Nat) (p a : Option String) :
    (order_create_post db uid p a).1 = db := by
  rcases order_create_post_inner_cases db uid p a with h | h | ⟨e, h⟩ <;>
    simp [order_create_post, h]

/-- `OrderCreateView.post` never returns HTTP 201. -/
theorem order_create_post_no_201 (db : DB) (uid : Nat) (p a : Option String) :
    (order_create_post db uid p a).2 ≠ .ok 201 := by
  rcases order_create_post_inner_cases db uid p a with h | h | ⟨e, h⟩ <;>
    simp [order_create_post, h]

/-- `CartItemViewSet.create` never commits a write: the early 400 returns the
database unchanged, and the filter on the nonexistent `product` field raises
before either mutating branch. -/
theorem cart_item_create_fst (db : DB) (uid : Nat) (req : CartCreateRequest) :
    (cart_item_create db uid req).1 = db := by
  by_cases h : req.product.getD "" = "" <;>
    simp [cart_item_create, h, cart_items_filter_user_product]

/-- `CartItemViewSet.create` never returns HTTP 201. -/
theorem cart_item_create_no_201 (db : DB) (uid : Nat) (req : CartCreateRequest) :
    (cart_item_create db uid req).2 ≠ .ok 201 := by
  by_cases h : req.product.getD "" = "" <;>
    simp [cart_item_create, h, cart_items_filter_user_product]

theorem store_product_relation_clean_ok_nonneg {r : StoreProductRelation}
    (h : store_product_relation_clean r = .ok ()) : 0 ≤ r.quantity := by
  unfold store_product_relation_clean at h
  split at h
  · exact absurd h (by simp)
  · omega

theorem upsert_relation_mem {l : List StoreProductRelation} {r x : StoreProductRelation}
    (hx : x ∈ upsert_relation l r) : x ∈ l ∨ x = r := by
  unfold upsert_relation at hx
  split at hx
  · rcases List.mem_map.mp hx with ⟨y, hy, hyx⟩
    by_cases hid : y.id == r.id
    · right; rw [hid] at hyx; simpa using hyx.symm
    · left; simp only [hid] at hyx; simp at hyx; exact hyx ▸ hy
  · rcases List.mem_append.mp hx with h | h
    · exact Or.inl h
    · right; simpa using h

theorem apply_op_preserves_nonneg (db : DB) (op : MarketOp)
    (h : inventory_nonneg db) : inventory_nonneg (apply_op db op) := by
  cases op with
  | save_relation r =>
    show inventory_nonneg (match store_product_relation_save db r with
      | .ok db2 => db2 | .error _ => db)
    unfold store_product_relation_save
    cases hc : store_product_relation_clean r with
    | error e => exact h
    | ok u =>
      intro x hx
      rcases upsert_relation_mem hx with hmem | hrx
      · exact h x hmem
      · cases u
        exact hrx ▸ store_product_relation_clean_ok_nonneg hc
  | soft_delete_relation rid now =>
    intro x hx
    rcases List.mem_map.mp hx with ⟨y, hy, hyx⟩
    have hq : x.quantity = y.quantity := by
      subst hyx
      split
      · split <;> rfl
      · rfl
    rw [hq]
    exact h y hy
  | place_order uid p a =>
    show inventory_nonneg (order_create_post db uid p a).1
    rw [order_create_post_fst]
    exact h
  | cart_create uid req =>
    show inventory_nonneg (cart_item_create db uid req).1
    rw [cart_item_create_fst]
    exact h

theorem run_ops_preserves_nonneg (ops : List MarketOp) :
    ∀ db : DB, inventory_nonneg db → inventory_nonneg (run_ops db ops) := by
  induction ops with
  | nil => intro db h; exact h
  | cons op rest ih =>
    intro db h
    exact ih (apply_op db op) (apply_op_preserves_nonneg db op h)

/-! ### Concrete scenarios -/

/-- Scenario of the repository's own `test_create_order_good`: one product at
price 99.99, one inventory entry with stock 100, one cart line of quantity 2. -/
def db_scenario_a : DB :=
  ⟨[⟨1, 1, "Test Product", 9999/100, none⟩],
   [⟨1, 1, 1, 100, 9999/100, none⟩],
   [⟨1, 1, 1, 2, none⟩], [], []⟩

/-- Insufficient-stock scenario: cart line of quantity 10 against stock 5. -/
def db_c2 : DB :=
  ⟨[⟨2, 1, "Scarce Product", 10, none⟩],
   [⟨2, 2, 1, 5, 10, none⟩],
   [⟨1, 1, 2, 10, none⟩], [], []⟩

/-- A user with one active cart line, for the validation scenarios. -/
def db_c3 : DB :=
  ⟨[⟨1, 1, "Test Product", 9999/100, none⟩],
   [⟨1, 1, 1, 100, 9999/100, none⟩],
   [⟨2, 1, 1, 1, none⟩], [], []⟩

/-- One stored order (id 7) with a single order item of quantity 2 at price
10. -/
def db_c4 : DB :=
  ⟨[], [⟨1, 1, 1, 100, 10, none⟩], [],
   [⟨7, some 1, "+1234567890", "123 Main St", "P", none⟩],
   [⟨1, 7, 1, "Test Product", 10, 2, none⟩]⟩

/-- An inventory entry with plenty of stock and an empty cart, for the
add-to-cart scenarios. -/
def db_c5 : DB := ⟨[⟨1, 1, "Test Product", 10, none⟩], [⟨1, 1, 1, 100, 10, none⟩], [], [], []⟩

/-- A user whose only cart line is already soft-deleted. -/
def db_c6 : DB := ⟨[], [], [⟨1, 1, 1, 2, some 5⟩], [], []⟩

/-- Stock 100 at price 99.99, empty cart, for the cart-create scenario of the
repository's own `test_create_cart_item_good`. -/
def db_c7 : DB := ⟨[⟨1, 1, "Test Product", 9999/100, none⟩], [⟨1, 1, 1, 100, 9999/100, none⟩], [], [], []⟩

/-- One active cart line of quantity 3, for the soft-delete scenario. -/
def db_c8 : DB :=
  ⟨[⟨1, 1, "Test Product", 9999/100, none⟩],
   [⟨1, 1, 1, 100, 9999/100, none⟩],
   [⟨1, 1, 1, 3, none⟩], [], []⟩

/-- Catalog price (50) differs from the inventory-entry price (99.99), for the
snapshot scenario. -/
def db_c9 : DB :=
  ⟨[⟨1, 1, "Gadget", 50, none⟩],
   [⟨1, 1, 1, 10, 9999/100, none⟩],
   [⟨1, 1, 1, 2, none⟩], [], []⟩

/-! ### Claims -/

/-- **C1** (code bug).  The claim — and the repository's
`test_create_order_good` — expect the Scenario-A `placeOrder` to return 201,
empty the cart and decrement stock 100 to 98.  The view instead raises
(`select_related("product")` and `item.product` refer to a field `CartItem` no
longer has), the transaction rolls back, the stock stays 100 and the cart line
stays in place; no decrement logic exists anywhere in the order flow. -/
theorem c1_place_order_scenario_a :
    order_create_post db_scenario_a 1 (some "+1234567890") (some "123 Main St") =
      (db_scenario_a,
        .error (.fieldError "Invalid field name given in select_related: product")) ∧
    (order_create_post db_scenario_a 1 (some "+1234567890") (some "123 Main St")).1.relations =
      [⟨1, 1, 1, 100, 9999/100, none⟩] ∧
    active_cart_items
      (order_create_post db_scenario_a 1 (some "+1234567890") (some "123 Main St")).1 1 =
      [⟨1, 1, 1, 2, none⟩] :=
  ⟨rfl, rfl, rfl⟩

/-- **C2** (code bug).  A cart line of quantity 10 against stock 5 is not
silently omitted from a resulting order: the call raises before building any
order item (and the view contains no stock check at all), so there is no
resulting order, no order items, and the cart line is not cleared.  The
repository's `test_create_order_bad_insufficient_stock` allows only 400 or
201; the code produces neither. -/
theorem c2_insufficient_stock_scenario :
    order_create_post db_c2 1 (some "+1234567890") (some "123 Main St") =
      (db_c2, .error (.fieldError "Invalid field name given in select_related: product")) ∧
    (order_create_post db_c2 1 (some "+1234567890") (some "123 Main St")).1.order_items = [] ∧
    active_cart_items
      (order_create_post db_c2 1 (some "+1234567890") (some "123 Main St")).1 1 =
      [⟨1, 1, 2, 10, none⟩] :=
  ⟨rfl, rfl, rfl⟩

/-- **C3** (code bug).  A missing `delivery_address` is answered with HTTP 404
(the claim and the repository's `test_create_order_bad_missing_fields` expect
400), and a malformed phone number (`"1234567890"`, no leading `+`) makes the
uncaught `ValidationError` of `Order.full_clean` escape the handler instead of
producing a 400 field-error response.  In both cases the database is left
unchanged, as the claim states. -/
theorem c3_validation_scenarios :
    order_create_post db_c3 1 (some "+1234567890") none = (db_c3, .ok 404) ∧
    order_create_post db_c3 1 (some "1234567890") (some "123 Main St") =
      (db_c3, .error (.validationError "Phone number must start with +")) :=
  ⟨rfl, rfl⟩

/-- **C6** (confirmed).  A user with no active (non-deleted) cart lines gets
HTTP 400 from `placeOrder` and the database — orders, cart and inventory — is
returned unchanged. -/
theorem c6_empty_cart (db : DB) (uid : Nat) (p a : Option String)
    (h : active_cart_items db uid = []) :
    order_create_post db uid p a = (db, .ok 400) := by
  simp [order_create_post, order_create_post_inner, h]

/-- Witness for C6: a user whose only cart line is soft-deleted has an empty
active cart and receives the 400 response with nothing mutated. -/
theorem c6_empty_cart_witness :
    order_create_post db_c6 1 (some "+1234567890") (some "123 Main St") = (db_c6, .ok 400) :=
  c6_empty_cart db_c6 1 (some "+1234567890") (some "123 Main St") (by decide)

/-- **C4** counterexample.  For order 7 with its single OrderItem of quantity
2 at price 10, the GET list reports `total_positions = null` and
`total_price = null` (the serializer overwrites the annotations with absent
context values), while Σ(unit_price × quantity) = 20 and Σ(quantity) = 2; the
queryset annotation `total_positions` is moreover the row count 1, not the
quantity sum 2. -/
theorem c4_totals_counterexample :
    order_list_get db_c4 1 = [⟨7, none, none⟩] ∧
    order_list_total_price db_c4 7 = some 20 ∧
    order_list_total_positions db_c4 7 = 1 ∧
    (order_items_all db_c4 7).map (fun i => i.quantity) = [2] := by
  refine ⟨rfl, ?_, rfl, rfl⟩
  show some ((10 : ℚ) * (2 : ℚ) + 0) = some 20
  norm_num

/-- **C4** amended.  In the `GET /users/{user_id}/orders` list every reported
entry carries `null` for both totals; the queryset annotations underneath
satisfy `total_price = Σ(price × quantity)` over the order's OrderItem rows
(SQL `NULL` for an order without rows) and `total_positions` equals the number
of OrderItem rows.  (The POST path never produces a 201 response, see C1.) -/
theorem c4_totals_amended (db : DB) (uid oid : Nat) :
    (∀ e ∈ order_list_get db uid, e.total_positions = none ∧ e.total_price = none) ∧
    order_list_total_positions db oid = (order_items_all db oid).length ∧
    (order_items_all db oid ≠ [] →
      order_list_total_price db oid =
        some (((order_items_all db oid).map (fun i => i.price * (i.quantity : ℚ))).sum)) := by
  refine ⟨?_, rfl, ?_⟩
  · intro e he
    rcases List.mem_map.mp he with ⟨o, _, rfl⟩
    exact ⟨rfl, rfl⟩
  · intro hne
    unfold order_list_total_price
    cases hl : order_items_all db oid with
    | nil => exact absurd hl hne
    | cons a l => rfl

/-- Witness for C4 amended, at the stored order of `db_c4`. -/
theorem c4_totals_amended_witness :
    order_list_total_price db_c4 7 =
      some (((order_items_all db_c4 7).map (fun i => i.price * (i.quantity : ℚ))).sum) :=
  (c4_totals_amended db_c4 1 7).2.2 (by decide)

/-- **C5** (code bug).  No `POST /carts` add can create or merge a cart line:
with a `product` key the view filters `CartItem` by the nonexistent `product`
field and the `FieldError` escapes; with only a `store_product` key (the
payload of the repository's `test_create_cart_item_good`) the view answers 400
at its null check.  After either call the user still has no cart line, so
`add(u,i,a)` followed by `add(u,i,b)` cannot leave a merged line of quantity
`a + b`. -/
theorem c5_cart_add_scenarios :
    cart_item_create db_c5 1 ⟨some "1", none, some 3⟩ =
      (db_c5, .error (.fieldError "Cannot resolve keyword product into field")) ∧
    cart_item_create db_c5 1 ⟨none, some 1, some 3⟩ = (db_c5, .ok 400) ∧
    active_cart_items (cart_item_create db_c5 1 ⟨some "1", none, some 3⟩).1 1 = [] ∧
    active_cart_items (cart_item_create db_c5 1 ⟨none, some 1, some 3⟩).1 1 = [] :=
  ⟨rfl, rfl, rfl, rfl⟩

/-- **C7** (code bug).  A valid `POST /carts` request (`store_product` id 1 in
stock 100, quantity 3) is answered with 400, not 201 — the view's null check
reads the `product` key, which the serializer contract and the repository's
`test_create_cart_item_good` do not use — and a quantity exceeding stock with
a `product` key raises instead of returning the claimed 400: no stock check
exists on the cart-create path. -/
theorem c7_cart_create_scenarios :
    cart_item_create db_c7 1 ⟨none, some 1, some 3⟩ = (db_c7, .ok 400) ∧
    cart_item_create db_c7 1 ⟨some "1", none, some 1000⟩ =
      (db_c7, .error (.fieldError "Cannot resolve keyword product into field")) :=
  ⟨rfl, rfl⟩

/-- **C8** (code bug).  After the Scenario-style `placeOrder` the cart line is
not soft-deleted: the call raises before reaching `cart_items.delete()`, so
the line is still active and untouched.  Moreover the clearing statement the
view would run is a bulk `QuerySet.delete`, which removes the rows from
storage outright — nothing is retained with a deletion timestamp. -/
theorem c8_cart_clearing_scenario :
    (order_create_post db_c8 1 (some "+1234567890") (some "123 Main St")).1.cart_items =
      [⟨1, 1, 1, 3, none⟩] ∧
    (order_create_post db_c8 1 (some "+1234567890") (some "123 Main St")).2 =
      .error (.fieldError "Invalid field name given in select_related: product") ∧
    (cart_items_queryset_delete db_c8 1).cart_items = [] :=
  ⟨rfl, rfl, rfl⟩

/-- **C9** (code bug).  With catalog price 50 differing from the inventory
entry's price 99.99, `placeOrder` creates no OrderItem at all: the snapshot
code reads `item.product.name` / `item.product.price` — the *catalog* record,
not the inventory entry, and through a field `CartItem` no longer has — so the
call raises and the order-items table stays empty. -/
theorem c9_snapshot_scenario :
    order_create_post db_c9 1 (some "+1234567890") (some "123 Main St") =
      (db_c9, .error (.fieldError "Invalid field name given in select_related: product")) ∧
    (order_create_post db_c9 1 (some "+1234567890") (some "123 Main St")).1.order_items = [] ∧
    cart_item_product ⟨1, 1, 1, 2, none⟩ =
      .error (.attributeError "CartItem object has no attribute product") :=
  ⟨rfl, rfl, rfl⟩

/-- **C10** (confirmed).  Starting from the empty database, after any sequence
of the repository's operations — administrative saves and soft deletions of
inventory entries, order placements, cart creations — every inventory entry
has a non-negative stock quantity: all writes to `StoreProductRelation` go
through `save`, which runs `full_clean`, and `clean` rejects a negative
quantity; the order and cart flows never write the inventory table. -/
theorem c10_inventory_quantity_nonneg (ops : List MarketOp) :
    inventory_nonneg (run_ops initial_db ops) :=
  run_ops_preserves_nonneg ops initial_db (by intro r hr; simp [initial_db] at hr)

end Marketplace
